import Mathlib

/-!
Verification of the message-selection and batch-deletion pipeline of the
Telegram_Seach_and_deletion repository.

The Python sources are shallowly embedded:
- json_analyzer.py : TelegramJSONAnalyzer.extract_outgoing_messages and
  find_messages_by_keywords over a record model of the JSON export;
- auto_delete_old.py : the candidate-selection logic of
  auto_delete_old_messages and the inline keyword check of
  api_only_delete_messages;
- telegram_deleter.py : TelegramDeleter.delete_message and
  delete_messages_batch, with the remote transport modelled as an
  environment of deterministic responses and the observable remote
  behaviour (fetches, delete calls, sleeps) as an explicit event trace.

Regex use in the sources is limited to alternations of word-boundary
anchored literal keywords; it is embedded as literal matching with an
explicit word-boundary test (python \w is modelled as ASCII alphanumeric
or underscore, which agrees on every text appearing in the claims).
-/

/-! ## Keyword matching (json_analyzer.find_messages_by_keywords,
    auto_delete_old.api_only_delete_messages lines 105-119) -/

/-- Word character test for the regex word boundary \b. Python \w is
unicode-aware; texts in this development are ASCII, where the two agree. -/
def isWordChar (c : Char) : Bool := c.isAlphanum || c == '_'

/-- Word-character test lifted to an optional character; the absence of a
character (string edge) counts as a non-word character, as for \b. -/
def oIsWord : Option Char → Bool
  | none => false
  | some c => isWordChar c

/-- Regex word boundary \b between two (optional) adjacent characters:
exactly one side is a word character. -/
def atBoundary (a b : Option Char) : Bool := oIsWord a != oIsWord b

/-- Whether the literal keyword occurs at offset i of the text with a word
boundary on both sides, as the pattern \b kw \b requires. -/
def wholeWordAt (kw text : List Char) (i : Nat) : Bool :=
  List.isPrefixOf kw (text.drop i) &&
  atBoundary ((text.take i).getLast?) kw.head? &&
  atBoundary kw.getLast? ((text.drop (i + kw.length)).head?)

/-- Embedding of re.search on the pattern \b kw \b for a literal keyword:
some offset of the text carries a word-boundary-delimited occurrence. -/
def wholeWordSearch (kw text : List Char) : Bool :=
  (List.range (text.length + 1)).any (wholeWordAt kw text)

/-- Embedding of python substring containment (the in operator, and
re.search on a bare literal keyword). -/
def containsSub (kw text : List Char) : Bool :=
  (List.range (text.length + 1)).any fun i => List.isPrefixOf kw (text.drop i)

/-- Search for one keyword as json_analyzer compiles it: word boundaries
when whole_words is set, bare otherwise; re.IGNORECASE is embedded by
lowering both keyword and text (equivalent for literal ASCII keywords;
word-boundary positions are unchanged by lowering). -/
def kwSearch (case_sensitive whole_words : Bool) (kw text : String) : Bool :=
  let k := if case_sensitive then kw.data else kw.data.map Char.toLower
  let t := if case_sensitive then text.data else text.data.map Char.toLower
  if whole_words then wholeWordSearch k t else containsSub k t

/-- Embedding of the combined-pattern search of
find_messages_by_keywords (json_analyzer.py lines 146-162): the alternation
of the per-keyword patterns matches a text iff some keyword pattern does. -/
def messageMatches (keywords : List String) (case_sensitive whole_words : Bool)
    (text : String) : Bool :=
  keywords.any fun kw => kwSearch case_sensitive whole_words kw text

/-- Embedding of the inline keyword loop of api_only_delete_messages
(auto_delete_old.py lines 100-122): the text is always lowered
(str(message.text).lower()); the keyword is lowered only when the search is
case-insensitive; whole-word mode compiles \b re.escape(kw) \b (escaped, so
literal matching is exact here), partial mode is substring containment. -/
def api_keyword_found (keywords : List String) (case_sensitive whole_words : Bool)
    (text : String) : Bool :=
  let t := text.data.map Char.toLower
  keywords.any fun kw =>
    let sk := if case_sensitive then kw.data else kw.data.map Char.toLower
    if whole_words then wholeWordSearch sk t else containsSub sk t

/-! ## Export data model and extraction
    (json_analyzer.extract_outgoing_messages, lines 37-124) -/

/-- Raw message of the JSON export. The date is the timestamp after the
load-time normalisation of date or date_unixtime; the text is the string
after the load-time concatenation of text-entity lists. -/
structure RawMessage where
  id : Nat
  out : Bool
  fromId : Option String
  fromName : Option String
  dateUnix : Int
  text : String
deriving DecidableEq, Repr

/-- Raw chat of the JSON export chats.list array. -/
structure RawChat where
  id : Int
  name : Option String
  ctype : String
  messages : List RawMessage
deriving DecidableEq, Repr

/-- Personal information block of the export. -/
structure PersonalInfo where
  user_id : Option Int
  first_name : Option String
deriving DecidableEq, Repr

/-- Loaded export document. -/
structure ExportData where
  personal : PersonalInfo
  chats : List RawChat
deriving DecidableEq, Repr

/-- Fallback scan of extract_outgoing_messages (lines 48-56): the first
from_id value that starts with the prefix user, kept as a string. -/
def scanUserId (chats : List RawChat) : Option String :=
  chats.findSome? fun ch => ch.messages.findSome? fun m =>
    match m.fromId with
    | some s => if s.startsWith "user" then some s else none
    | none => none

/-- User identity as extract_outgoing_messages determines it: an integer
from personal_information.user_id, a string from the fallback scan, or
nothing. Python truthiness makes a user_id of 0 fall through to the
fallback, which the first branch reproduces. -/
inductive UserIdVal where
  | fromPersonal (n : Int)
  | fromScan (s : String)
  | noneFound
deriving DecidableEq, Repr

/-- Embedding of the user-id determination of extract_outgoing_messages
(lines 45-56). -/
def getUserId (d : ExportData) : UserIdVal :=
  match d.personal.user_id with
  | some n =>
      if n = 0 then
        match scanUserId d.chats with
        | some s => .fromScan s
        | none => .noneFound
      else .fromPersonal n
  | none =>
      match scanUserId d.chats with
      | some s => .fromScan s
      | none => .noneFound

/-- String the python f-string user{user_id} produces for the held id. -/
def userIdTag : UserIdVal → String
  | .fromPersonal n => "user" ++ toString n
  | .fromScan s => "user" ++ s
  | .noneFound => ""

/-- String str(user_id) produces for the held id. -/
def userIdStr : UserIdVal → String
  | .fromPersonal n => toString n
  | .fromScan s => s
  | .noneFound => ""

/-- Embedding of the four-way outgoing test of extract_outgoing_messages
(lines 70-88): the out flag; from_id equal to user{user_id}; from_id equal
to str(user_id); or a non-empty from field equal to the first name of the
personal information (empty when absent). -/
def is_outgoing (uid : UserIdVal) (firstName : Option String) (m : RawMessage) : Bool :=
  if m.out then true
  else if (match uid with | .noneFound => false | _ => m.fromId == some (userIdTag uid)) then true
  else if (match uid with | .noneFound => false | _ => m.fromId == some (userIdStr uid)) then true
  else match m.fromName with
       | none => false
       | some s => s != "" && s == firstName.getD ""

/-- Row of the extracted outgoing-message DataFrame. The from_id, from and
reply_to_message_id columns also present in the DataFrame are never read by
the selection or deletion pipeline and are omitted. -/
structure MsgRow where
  chat_id : Int
  chat_name : String
  chat_type : String
  message_id : Nat
  date : Int
  text : String
deriving DecidableEq, Repr

/-- Embedding of extract_outgoing_messages (json_analyzer.py lines 37-124):
every message of every chat that passes the outgoing test, in document
order, as a DataFrame row. The chat name defaults to Chat_ followed by the
chat id when absent. -/
def extract_outgoing_messages (d : ExportData) : List MsgRow :=
  let uid := getUserId d
  (d.chats.map fun ch =>
    (ch.messages.filter (is_outgoing uid d.personal.first_name)).map fun m =>
      { chat_id := ch.id
        chat_name := ch.name.getD ("Chat_" ++ toString ch.id)
        chat_type := ch.ctype
        message_id := m.id
        date := m.dateUnix
        text := m.text }).flatten

/-- Embedding of find_messages_by_keywords (json_analyzer.py lines
126-182): an empty keyword list returns an empty DataFrame (lines 143-144);
otherwise the rows whose text the combined pattern matches, in order. The
matched_keywords column added by the source is not read downstream and is
omitted. -/
def find_messages_by_keywords (msgs : List MsgRow) (keywords : List String)
    (case_sensitive whole_words : Bool) : List MsgRow :=
  if keywords.isEmpty then []
  else msgs.filter fun m => messageMatches keywords case_sensitive whole_words m.text

/-- Embedding of the candidate selection of auto_delete_old_messages
(auto_delete_old.py lines 228-250): extract the outgoing messages, keep
those strictly older than the cutoff, and when the keyword list is
non-empty keep only the old rows whose message_id occurs among the
message_id values of the keyword matches (the isin filter of line 247,
which compares ids only, not the row itself). When the keyword list is
non-empty but nothing matches, the source raises a KeyError on the missing
message_id column of the empty DataFrame and the run aborts with an empty
effective candidate set; the embedding returns the same empty set. -/
def select_old_messages (d : ExportData) (cutoff : Int) (keywords : List String)
    (case_sensitive whole_words : Bool) : List MsgRow :=
  let allMsgs := extract_outgoing_messages d
  let old := allMsgs.filter fun m => m.date < cutoff
  if keywords.isEmpty then old
  else
    let km := find_messages_by_keywords allMsgs keywords case_sensitive whole_words
    let ids := km.map fun m => m.message_id
    old.filter fun m => ids.contains m.message_id

/-! ## Remote transport model and observable events
    (telegram_deleter.py TelegramDeleter) -/

/-- Result of the re-fetch client.get_messages performed by delete_message
through get_message_from_chat (lines 127-143): the message is gone, or it
exists and carries its out flag. Exceptions inside get_message_from_chat
are caught there and surface as a missing message. -/
inductive FetchResult where
  | missing
  | found (out : Bool)
deriving DecidableEq, Repr

/-- Result of the remote client.delete_messages call of line 173: an
acknowledgement truthy or falsy, or one of the exceptions the handlers of
lines 180-195 distinguish. -/
inductive DeleteCallResult where
  | ack (r : Bool)
  | floodWait (seconds : Nat)
  | adminRequired
  | deleteForbidden
  | unexpectedError (detail : String)
deriving DecidableEq, Repr

/-- Deterministic remote environment for one run: whether
find_chat_by_name_or_id resolves a chat id, what the re-fetch of a message
returns, and how the remote delete call for a message answers. -/
structure TelegramEnv where
  resolve : Int → Bool
  fetchMsg : Int → Nat → FetchResult
  deleteRes : Int → Nat → DeleteCallResult

/-- Observable remote actions of a run, in order: a message re-fetch, a
remote delete call (with its revoke flag), the flood-wait sleep of line
183, and the inter-batch pacing sleep of line 271. The two sleeps come
from distinct call sites and are kept distinct. -/
inductive Event where
  | fetch (chat_id : Int) (message_id : Nat)
  | deleteCall (chat_id : Int) (message_id : Nat) (revoke : Bool)
  | sleepFlood (seconds : Nat)
  | sleepPacing (seconds : Nat)
deriving DecidableEq, Repr

/-- Embedding of TelegramDeleter.delete_message (lines 145-195). Returns
the (success, message) pair of the source together with the trace of
remote actions the call performs. In dry-run mode no remote action
happens; in live mode the message is re-fetched, its out flag checked, and
the remote delete issued, with the exception handlers of lines 180-195
mapped over the possible outcomes of the delete call. -/
def delete_message (env : TelegramEnv) (chat_id : Int) (message_id : Nat)
    (revoke : Bool) (dry_run : Bool) : (Bool × String) × List Event :=
  if dry_run then ((true, "DRY RUN: Would delete message"), [])
  else
    match env.fetchMsg chat_id message_id with
    | .missing => ((false, "Message not found"), [.fetch chat_id message_id])
    | .found out =>
      if !out then ((false, "Message is not from you"), [.fetch chat_id message_id])
      else
        match env.deleteRes chat_id message_id with
        | .ack r =>
            ((if r then (true, "Message deleted successfully") else (false, "Deletion failed")),
             [.fetch chat_id message_id, .deleteCall chat_id message_id revoke])
        | .floodWait n =>
            ((false, "Rate limited, waited " ++ toString n ++ "s"),
             [.fetch chat_id message_id, .deleteCall chat_id message_id revoke, .sleepFlood n])
        | .adminRequired =>
            ((false, "Admin rights required"),
             [.fetch chat_id message_id, .deleteCall chat_id message_id revoke])
        | .deleteForbidden =>
            ((false, "Message deletion forbidden"),
             [.fetch chat_id message_id, .deleteCall chat_id message_id revoke])
        | .unexpectedError d =>
            ((false, "Unexpected error: " ++ d),
             [.fetch chat_id message_id, .deleteCall chat_id message_id revoke])

/-- Error-ledger entry appended at lines 262-266. -/
structure ErrorEntry where
  chat_name : String
  message_id : Nat
  error : String
deriving DecidableEq, Repr

/-- Statistics dictionary initialised in TelegramDeleter.__init__
(lines 44-50) and mutated by delete_messages_batch. -/
structure Stats where
  total_processed : Nat
  successfully_deleted : Nat
  failed : Nat
  skipped : Nat
  errors : List ErrorEntry
deriving DecidableEq, Repr

/-- Statistics as a fresh TelegramDeleter instance holds them. -/
def initStats : Stats := ⟨0, 0, 0, 0, []⟩

/-- Embedding of the per-message body of the batch loop (lines 248-266):
one delete_message attempt with revoke set, total_processed incremented,
then the success counter matching the mode, or the failure counter plus an
error-ledger entry. -/
def processMessage (env : TelegramEnv) (dry_run : Bool) (chat_id : Int)
    (chat_name : String) (msg_id : Nat) (s : Stats) : Stats × List Event :=
  let r := delete_message env chat_id msg_id true dry_run
  let s1 : Stats := { s with total_processed := s.total_processed + 1 }
  if r.1.1 then
    if dry_run then ({ s1 with skipped := s1.skipped + 1 }, r.2)
    else ({ s1 with successfully_deleted := s1.successfully_deleted + 1 }, r.2)
  else
    ({ s1 with
        failed := s1.failed + 1
        errors := s1.errors ++ [⟨chat_name, msg_id, r.1.2⟩] }, r.2)

/-- Sequential processing of the messages of one batch (the inner tqdm
loop of line 248), threading statistics and concatenating traces. -/
def processMsgs (env : TelegramEnv) (dry_run : Bool) (chat_id : Int)
    (chat_name : String) : List Nat → Stats → Stats × List Event
  | [], s => (s, [])
  | m :: ms, s =>
    let r1 := processMessage env dry_run chat_id chat_name m s
    let r2 := processMsgs env dry_run chat_id chat_name ms r1.1
    (r2.1, r1.2 ++ r2.2)

/-- Fuel-indexed chunking: message_ids[i : i + batch_size] for i ranging
over range(0, len, batch_size) as in lines 240-241. The fuel bounds the
number of chunks; chunks supplies the list length, enough whenever the
batch size is positive (python rejects a zero step outright). -/
def chunksAux (B : Nat) : Nat → List Nat → List (List Nat)
  | _, [] => []
  | 0, _ :: _ => []
  | fuel + 1, m :: ms => (m :: ms).take B :: chunksAux B fuel ((m :: ms).drop B)

/-- Batches the python loop of lines 240-241 forms from a message-id list. -/
def chunks (B : Nat) (ids : List Nat) : List (List Nat) := chunksAux B ids.length ids

/-- Embedding of the batch loop of lines 240-271 over the formed batches:
process each batch; after a batch that is not the last of this chat, when
the delay is positive, the pacing sleep of line 271 (the python guard
i + batch_size < len(message_ids) holds exactly when further batches
remain). -/
def processBatchList (env : TelegramEnv) (dry_run : Bool) (chat_id : Int)
    (chat_name : String) (delay : Nat) : List (List Nat) → Stats → Stats × List Event
  | [], s => (s, [])
  | b :: bs, s =>
    let r1 := processMsgs env dry_run chat_id chat_name b s
    let t1 := if bs ≠ [] ∧ 0 < delay then r1.2 ++ [Event.sleepPacing delay] else r1.2
    let r2 := processBatchList env dry_run chat_id chat_name delay bs r1.1
    (r2.1, t1 ++ r2.2)

/-- One chat group of the grouped DataFrame: the groupby key pair and the
message-id column of the group in original order. -/
structure ChatGroup where
  chat_id : Int
  chat_name : String
  message_ids : List Nat
deriving DecidableEq, Repr

/-- Embedding of the per-chat body of delete_messages_batch (lines
226-271): resolve the chat once; on failure add the whole candidate count
to the failed counter and continue (lines 230-235) with no remote attempt,
no error-ledger entry and no total_processed change; on success run the
batch loop. -/
def processChat (env : TelegramEnv) (dry_run : Bool) (B delay : Nat)
    (g : ChatGroup) (s : Stats) : Stats × List Event :=
  if env.resolve g.chat_id then
    processBatchList env dry_run g.chat_id g.chat_name delay (chunks B g.message_ids) s
  else
    ({ s with failed := s.failed + g.message_ids.length }, [])

/-- Embedding of TelegramDeleter.delete_messages_batch (lines 197-273)
over the chat groups pandas groupby produces (ordered by key, stable
inside a group): chats sequentially, statistics threaded from the given
starting value, traces concatenated. An empty DataFrame returns the
statistics unchanged, as the early return of lines 213-215 does. -/
def delete_messages_batch (env : TelegramEnv) (dry_run : Bool) (B delay : Nat) :
    List ChatGroup → Stats → Stats × List Event
  | [], s => (s, [])
  | g :: gs, s =>
    let r1 := processChat env dry_run B delay g s
    let r2 := delete_messages_batch env dry_run B delay gs r1.1
    (r2.1, r1.2 ++ r2.2)

/-! ## Trace observations -/

/-- Whether an event is a remote delete call. -/
def isDeleteCallEv : Event → Bool
  | .deleteCall _ _ _ => true
  | _ => false

/-- Whether an event is an inter-batch pacing sleep. -/
def isPacingEv : Event → Bool
  | .sleepPacing _ => true
  | _ => false

/-- Whether an event is the re-fetch opening a live delete attempt on the
given message of the given chat. Every live attempt emits exactly one. -/
def isAttemptEv (c : Int) (m : Nat) : Event → Bool
  | .fetch c2 m2 => c2 == c && m2 == m
  | _ => false

/-- Number of remote delete calls in a trace. -/
def deleteCallCount (tr : List Event) : Nat := tr.countP isDeleteCallEv

/-- Number of pacing sleeps in a trace. -/
def pacingCount (tr : List Event) : Nat := tr.countP isPacingEv

/-- Number of live delete attempts on one message of one chat in a trace. -/
def attemptCount (c : Int) (m : Nat) (tr : List Event) : Nat :=
  tr.countP (isAttemptEv c m)

/-- Number of times a run over the given groups schedules an attempt on
the given message of the given chat: its multiplicity inside every
resolvable group keyed by that chat. -/
def scheduledCount (env : TelegramEnv) (c : Int) (m : Nat) : List ChatGroup → Nat
  | [] => 0
  | g :: gs =>
    (if env.resolve g.chat_id ∧ g.chat_id = c then g.message_ids.count m else 0) +
      scheduledCount env c m gs

/-- Number of pacing sleeps a run over the given groups performs when the
delay is positive: one fewer than the batch count of every resolvable
chat. -/
def pacingExpected (env : TelegramEnv) (B : Nat) : List ChatGroup → Nat
  | [] => 0
  | g :: gs =>
    (if env.resolve g.chat_id then (chunks B g.message_ids).length - 1 else 0) +
      pacingExpected env B gs

/-- Total candidate count of a group list. -/
def groupsTotal : List ChatGroup → Nat
  | [] => 0
  | g :: gs => g.message_ids.length + groupsTotal gs

/-- Statistics invariant of claim C10: every processed attempt lands in
exactly one of successfully_deleted, skipped, or the error ledger. -/
def statsInv (s : Stats) : Prop :=
  s.total_processed = s.successfully_deleted + s.skipped + s.errors.length

/-! ## Specification-side live-delete case table (for claim C6) -/

/-- Case table of the live-mode delete attempt as the specification words
it (spec sections 4.4 and 7): a fetch miss fails as message not found; a
message not authored by the owner fails as not from you; otherwise the
remote delete is issued with the remove-for-all-participants flag set and
a truthy acknowledgement deletes while a falsy one fails as deletion
failed; a permission-denied signal fails as admin rights required; a
delete-forbidden signal fails as message deletion forbidden; a rate-limit
signal sleeps for the carried duration and fails; any other error fails
with its detail. Detail strings are written as the code capitalises them;
the specification paraphrases them in lower case. -/
def spec_live_delete (fr : FetchResult) (dres : DeleteCallResult)
    (chat_id : Int) (message_id : Nat) : (Bool × String) × List Event :=
  match fr with
  | .missing => ((false, "Message not found"), [.fetch chat_id message_id])
  | .found false => ((false, "Message is not from you"), [.fetch chat_id message_id])
  | .found true =>
    match dres with
    | .ack true =>
        ((true, "Message deleted successfully"),
         [.fetch chat_id message_id, .deleteCall chat_id message_id true])
    | .ack false =>
        ((false, "Deletion failed"),
         [.fetch chat_id message_id, .deleteCall chat_id message_id true])
    | .floodWait n =>
        ((false, "Rate limited, waited " ++ toString n ++ "s"),
         [.fetch chat_id message_id, .deleteCall chat_id message_id true, .sleepFlood n])
    | .adminRequired =>
        ((false, "Admin rights required"),
         [.fetch chat_id message_id, .deleteCall chat_id message_id true])
    | .deleteForbidden =>
        ((false, "Message deletion forbidden"),
         [.fetch chat_id message_id, .deleteCall chat_id message_id true])
    | .unexpectedError d =>
        ((false, "Unexpected error: " ++ d),
         [.fetch chat_id message_id, .deleteCall chat_id message_id true])

/-! ## Concrete inputs used by counterexamples and witnesses -/

/-- Export with two chats whose single messages share the message id 5;
only the chat-B text contains the keyword. -/
def c1Data : ExportData :=
  ⟨⟨none, none⟩,
   [⟨1, some "A", "personal_chat", [⟨5, true, none, none, 0, "x"⟩]⟩,
    ⟨2, some "B", "personal_chat", [⟨5, true, none, none, 0, "here is my card"⟩]⟩]⟩

/-- Environment where every chat resolves, every re-fetch finds an
owner-authored message, and every remote delete acknowledges. -/
def allOkEnv : TelegramEnv :=
  ⟨fun _ => true, fun _ _ => .found true, fun _ _ => .ack true⟩

/-- Environment where chat 2 does not resolve and everything else
succeeds. -/
def c3Env : TelegramEnv :=
  ⟨fun c => decide (c ≠ 2), fun _ _ => .found true, fun _ _ => .ack true⟩

/-- Three chat groups; the middle one is keyed by the unresolvable
chat 2. -/
def c3Groups : List ChatGroup :=
  [⟨1, "A", [10]⟩, ⟨2, "B", [20, 21]⟩, ⟨3, "C", [30]⟩]

/-- Environment where every remote delete call on message id 2 answers
with a flood-wait of 5 seconds and everything else succeeds. -/
def c5Env : TelegramEnv :=
  ⟨fun _ => true, fun _ _ => .found true,
   fun _ m => if m = 2 then .floodWait 5 else .ack true⟩

/-- The end-to-end grouping of the specification scenario: chat A with
ids 1, 2, 3 and chat B with id 4. -/
def c7Groups : List ChatGroup :=
  [⟨1, "A", [1, 2, 3]⟩, ⟨2, "B", [4]⟩]

/-- Environment where no chat resolves. -/
def noResolveEnv : TelegramEnv :=
  ⟨fun _ => false, fun _ _ => .found true, fun _ _ => .ack true⟩

/-! ## Batching lemmas (claim C2) -/

/-- Fuel-indexed chunking concatenates back to the input list when the
batch size is positive and the fuel covers the list. -/
theorem chunksAux_flatten (B : Nat) (hB : 0 < B) :
    ∀ (fuel : Nat) (ids : List Nat), ids.length ≤ fuel →
      (chunksAux B fuel ids).flatten = ids := by
  intro fuel
  induction fuel with
  | zero =>
      intro ids h
      cases ids with
      | nil => rfl
      | cons m ms => simp at h
  | succ f ih =>
      intro ids h
      cases ids with
      | nil => rfl
      | cons m ms =>
          simp only [chunksAux, List.flatten_cons]
          rw [ih ((m :: ms).drop B) (by simp only [List.length_drop, List.length_cons] at *; omega)]
          exact List.take_append_drop B (m :: ms)

/-- Every chunk the fuel-indexed chunking produces has at most the batch
size of elements. -/
theorem chunksAux_mem_length_le (B : Nat) :
    ∀ (fuel : Nat) (ids : List Nat) (b : List Nat), b ∈ chunksAux B fuel ids → b.length ≤ B := by
  intro fuel
  induction fuel with
  | zero =>
      intro ids b hb
      cases ids with
      | nil => simp [chunksAux] at hb
      | cons m ms => simp [chunksAux] at hb
  | succ f ih =>
      intro ids b hb
      cases ids with
      | nil => simp [chunksAux] at hb
      | cons m ms =>
          simp only [chunksAux, List.mem_cons] at hb
          rcases hb with hb | hb
          · subst hb
            simp [List.length_take]
          · exact ih _ _ hb

/-- The fuel-indexed chunking produces the rounded-up quotient of the list
length by the batch size as its number of chunks. -/
theorem chunksAux_length (B : Nat) (hB : 0 < B) :
    ∀ (fuel : Nat) (ids : List Nat), ids.length ≤ fuel →
      (chunksAux B fuel ids).length = (ids.length + B - 1) / B := by
  intro fuel
  induction fuel with
  | zero =>
      intro ids h
      cases ids with
      | nil => simp [chunksAux, Nat.div_eq_of_lt (by omega : B - 1 < B)]
      | cons m ms => simp at h
  | succ f ih =>
      intro ids h
      cases ids with
      | nil => simp [chunksAux, Nat.div_eq_of_lt (by omega : B - 1 < B)]
      | cons m ms =>
          simp only [chunksAux, List.length_cons]
          rw [ih ((m :: ms).drop B) (by simp only [List.length_drop, List.length_cons] at *; omega)]
          simp only [List.length_drop, List.length_cons]
          have hr : ms.length + 1 + B - 1 = (ms.length + 1 - 1) + B := by omega
          rw [hr, Nat.add_div_right _ hB]
          rcases le_or_lt B (ms.length + 1) with hle | hlt
          · have h1 : ms.length + 1 - B + B - 1 = ms.length := by omega
            have h2 : ms.length + 1 - 1 = ms.length := by omega
            rw [h1, h2]
          · have h1 : ms.length + 1 - B + B - 1 = B - 1 := by omega
            rw [h1]
            rw [Nat.div_eq_of_lt (by omega : B - 1 < B)]
            rw [Nat.div_eq_of_lt (by omega : ms.length + 1 - 1 < B)]

/-- The batches of a chat concatenate back to its message-id list. -/
theorem chunks_flatten (B : Nat) (hB : 0 < B) (ids : List Nat) :
    (chunks B ids).flatten = ids :=
  chunksAux_flatten B hB ids.length ids le_rfl

/-- The batch sizes of a chat sum to its candidate count. -/
theorem chunks_sum_lengths (B : Nat) (hB : 0 < B) (ids : List Nat) :
    ((chunks B ids).map List.length).sum = ids.length := by
  rw [← List.length_flatten, chunks_flatten B hB ids]

/-- Claim C2: for every chat with N candidate message ids and batch size
B positive, the deleter splits the ids into the round-up of N over B many
batches, each of size at most B, whose concatenation is exactly the
original id list, so every id is covered with its original multiplicity in
the original order and a duplicate-free id list yields a duplicate-free
concatenation. -/
theorem claim_C2_batch_integrity (ids : List Nat) (B : Nat) (hB : 0 < B) :
    (chunks B ids).flatten = ids ∧
    (∀ b ∈ chunks B ids, b.length ≤ B) ∧
    (chunks B ids).length = (ids.length + B - 1) / B ∧
    (ids.Nodup → (chunks B ids).flatten.Nodup) := by
  refine ⟨chunksAux_flatten B hB ids.length ids le_rfl,
          fun b hb => chunksAux_mem_length_le B ids.length ids b hb,
          chunksAux_length B hB ids.length ids le_rfl, ?_⟩
  intro hnd
  rw [show chunks B ids = chunksAux B ids.length ids from rfl,
      chunksAux_flatten B hB ids.length ids le_rfl]
  exact hnd

/-- Witness instantiating claim C2 at the concrete list 1, 2, 3 with batch
size 2. -/
theorem claim_C2_witness :
    0 < 2 ∧
    ((chunks 2 [1, 2, 3]).flatten = [1, 2, 3] ∧
     (∀ b ∈ chunks 2 [1, 2, 3], b.length ≤ 2) ∧
     (chunks 2 [1, 2, 3]).length = (([1, 2, 3] : List Nat).length + 2 - 1) / 2 ∧
     (([1, 2, 3] : List Nat).Nodup → (chunks 2 [1, 2, 3]).flatten.Nodup)) :=
  ⟨by decide, claim_C2_batch_integrity [1, 2, 3] 2 (by decide)⟩

/-! ## Dry-run lemmas (claim C4) -/

/-- Dry-run processing of a message list only counts: every message adds
one to total_processed and one to skipped, and no remote event occurs. -/
theorem processMsgs_dry (env : TelegramEnv) (c : Int) (nm : String) :
    ∀ (ids : List Nat) (s : Stats),
      processMsgs env true c nm ids s =
        ({ s with
            total_processed := s.total_processed + ids.length
            skipped := s.skipped + ids.length }, []) := by
  intro ids
  induction ids with
  | nil => intro s; simp [processMsgs]
  | cons m ms ih =>
      intro s
      simp [processMsgs, processMessage, delete_message, ih, Stats.mk.injEq]
      omega

/-- Dry-run processing of a batch list counts every contained message into
total_processed and skipped and performs no remote delete call. -/
theorem processBatchList_dry (env : TelegramEnv) (c : Int) (nm : String) (delay : Nat) :
    ∀ (bs : List (List Nat)) (s : Stats),
      (processBatchList env true c nm delay bs s).1 =
        { s with
            total_processed := s.total_processed + (bs.map List.length).sum
            skipped := s.skipped + (bs.map List.length).sum } ∧
      deleteCallCount (processBatchList env true c nm delay bs s).2 = 0 := by
  intro bs
  induction bs with
  | nil => intro s; simp [processBatchList, deleteCallCount]
  | cons b bs ih =>
      intro s
      obtain ⟨ih1, ih2⟩ := ih { s with
        total_processed := s.total_processed + b.length
        skipped := s.skipped + b.length }
      simp only [processBatchList, processMsgs_dry]
      constructor
      · simp [ih1, Stats.mk.injEq]
        omega
      · simp only [deleteCallCount, List.countP_append] at ih2 ⊢
        split
        · simp [ih2, isDeleteCallEv]
        · simp [ih2]

/-- Dry-run processing of one resolvable chat counts its whole candidate
list into total_processed and skipped and performs no remote delete
call. -/
theorem processChat_dry (env : TelegramEnv) (B delay : Nat) (hB : 0 < B)
    (g : ChatGroup) (s : Stats) (hres : env.resolve g.chat_id = true) :
    (processChat env true B delay g s).1 =
      { s with
          total_processed := s.total_processed + g.message_ids.length
          skipped := s.skipped + g.message_ids.length } ∧
    deleteCallCount (processChat env true B delay g s).2 = 0 := by
  have h := processBatchList_dry env g.chat_id g.chat_name delay (chunks B g.message_ids) s
  rw [chunks_sum_lengths B hB g.message_ids] at h
  simpa [processChat, hres] using h

/-- Dry-run processing of a group list whose chats all resolve counts the
total candidate count into total_processed and skipped and performs no
remote delete call. -/
theorem delete_messages_batch_dry (env : TelegramEnv) (B delay : Nat) (hB : 0 < B) :
    ∀ (groups : List ChatGroup) (s : Stats),
      (∀ g ∈ groups, env.resolve g.chat_id = true) →
      (delete_messages_batch env true B delay groups s).1 =
        { s with
            total_processed := s.total_processed + groupsTotal groups
            skipped := s.skipped + groupsTotal groups } ∧
      deleteCallCount (delete_messages_batch env true B delay groups s).2 = 0 := by
  intro groups
  induction groups with
  | nil => intro s hres; simp [delete_messages_batch, deleteCallCount, groupsTotal]
  | cons g gs ih =>
      intro s hres
      obtain ⟨hc1, hc2⟩ := processChat_dry env B delay hB g s (hres g (by simp))
      obtain ⟨ih1, ih2⟩ := ih { s with
        total_processed := s.total_processed + g.message_ids.length
        skipped := s.skipped + g.message_ids.length } (fun g2 h2 => hres g2 (by simp [h2]))
      constructor
      · simp [delete_messages_batch, hc1, ih1, groupsTotal, Stats.mk.injEq]
        omega
      · simp only [delete_messages_batch, deleteCallCount, List.countP_append] at hc2 ih2 ⊢
        rw [hc1]
        omega

/-- Claim C4: a dry-run over a candidate set whose chats all resolve,
started from fresh statistics, always produces the same statistics value,
with skipped equal to the candidate count, successfully_deleted zero,
failed zero, an empty error ledger, and zero remote delete calls issued;
two such runs therefore produce identical statistics. -/
theorem claim_C4_dry_run (env : TelegramEnv) (groups : List ChatGroup) (B delay : Nat)
    (hB : 0 < B) (hres : ∀ g ∈ groups, env.resolve g.chat_id = true) :
    (delete_messages_batch env true B delay groups initStats).1 =
      ⟨groupsTotal groups, 0, 0, groupsTotal groups, []⟩ ∧
    deleteCallCount (delete_messages_batch env true B delay groups initStats).2 = 0 := by
  obtain ⟨h1, h2⟩ := delete_messages_batch_dry env B delay hB groups initStats hres
  refine ⟨?_, h2⟩
  rw [h1]
  simp [initStats, Stats.mk.injEq]

/-- Witness instantiating claim C4 at the concrete two-chat grouping with
an all-resolving environment. -/
theorem claim_C4_witness :
    0 < 100 ∧ (∀ g ∈ c7Groups, allOkEnv.resolve g.chat_id = true) ∧
    ((delete_messages_batch allOkEnv true 100 2 c7Groups initStats).1 =
      ⟨groupsTotal c7Groups, 0, 0, groupsTotal c7Groups, []⟩ ∧
     deleteCallCount (delete_messages_batch allOkEnv true 100 2 c7Groups initStats).2 = 0) :=
  ⟨by decide, by decide, claim_C4_dry_run allOkEnv c7Groups 100 2 (by decide) (by decide)⟩

/-! ## Statistics invariant lemmas (claim C10) -/

/-- One processed message preserves the statistics invariant: it adds one
to total_processed and exactly one of successfully_deleted, skipped, or an
error-ledger entry. -/
theorem statsInv_processMessage (env : TelegramEnv) (dr : Bool) (c : Int) (nm : String)
    (m : Nat) (s : Stats) (h : statsInv s) :
    statsInv (processMessage env dr c nm m s).1 := by
  simp only [statsInv] at *
  unfold processMessage
  dsimp only
  split
  · split
    · dsimp; omega
    · dsimp; omega
  · dsimp
    simp only [List.length_append, List.length_cons, List.length_nil]
    omega

/-- Batch-inner message processing preserves the statistics invariant. -/
theorem statsInv_processMsgs (env : TelegramEnv) (dr : Bool) (c : Int) (nm : String) :
    ∀ (ids : List Nat) (s : Stats), statsInv s → statsInv (processMsgs env dr c nm ids s).1 := by
  intro ids
  induction ids with
  | nil => intro s h; simpa [processMsgs] using h
  | cons m ms ih =>
      intro s h
      simp only [processMsgs]
      exact ih _ (statsInv_processMessage env dr c nm m s h)

/-- Batch processing preserves the statistics invariant. -/
theorem statsInv_processBatchList (env : TelegramEnv) (dr : Bool) (c : Int) (nm : String)
    (delay : Nat) :
    ∀ (bs : List (List Nat)) (s : Stats), statsInv s →
      statsInv (processBatchList env dr c nm delay bs s).1 := by
  intro bs
  induction bs with
  | nil => intro s h; simpa [processBatchList] using h
  | cons b bs ih =>
      intro s h
      simp only [processBatchList]
      exact ih _ (statsInv_processMsgs env dr c nm b s h)

/-- Chat processing preserves the statistics invariant; the
resolution-failure branch touches only the failed counter, which the
invariant does not mention. -/
theorem statsInv_processChat (env : TelegramEnv) (dr : Bool) (B delay : Nat)
    (g : ChatGroup) (s : Stats) (h : statsInv s) :
    statsInv (processChat env dr B delay g s).1 := by
  simp only [processChat]
  split
  · exact statsInv_processBatchList env dr g.chat_id g.chat_name delay _ s h
  · simpa [statsInv] using h

/-- A whole run preserves the statistics invariant. -/
theorem statsInv_run (env : TelegramEnv) (dr : Bool) (B delay : Nat) :
    ∀ (groups : List ChatGroup) (s : Stats), statsInv s →
      statsInv (delete_messages_batch env dr B delay groups s).1 := by
  intro groups
  induction groups with
  | nil => intro s h; simpa [delete_messages_batch] using h
  | cons g gs ih =>
      intro s h
      simp only [delete_messages_batch]
      exact ih _ (statsInv_processChat env dr B delay g s h)

/-- Claim C10: every call to delete_messages_batch preserves the invariant
that total_processed equals successfully_deleted plus skipped plus the
error-ledger length, and the failed counter can exceed the error-ledger
length: a run over one unresolvable chat with two candidates ends with
failed two, an empty ledger and total_processed zero. -/
theorem claim_C10_inv (env : TelegramEnv) (dr : Bool) (B delay : Nat)
    (groups : List ChatGroup) (s : Stats) (h : statsInv s) :
    statsInv (delete_messages_batch env dr B delay groups s).1 ∧
    (delete_messages_batch noResolveEnv false 100 2 [⟨9, "C", [1, 2]⟩] initStats).1 =
      ⟨0, 0, 2, 0, []⟩ :=
  ⟨statsInv_run env dr B delay groups s h, by decide⟩

/-- Witness instantiating claim C10 at a concrete environment, grouping
and fresh statistics. -/
theorem claim_C10_witness :
    statsInv initStats ∧
    (statsInv (delete_messages_batch c3Env false 100 2 c3Groups initStats).1 ∧
     (delete_messages_batch noResolveEnv false 100 2 [⟨9, "C", [1, 2]⟩] initStats).1 =
       ⟨0, 0, 2, 0, []⟩) :=
  ⟨rfl, claim_C10_inv c3Env false 100 2 c3Groups initStats rfl⟩

/-! ## Resolution-failure behaviour (claim C3) -/

/-- Claim C3, amended: when chat resolution fails for one chat, no remote
action at all happens for that chat (its trace is empty, so no delete
attempt is made), the failed counter grows by its whole candidate count
with no error-ledger entry, no reason string and no total_processed
change, and the run continues with the remaining chats from exactly that
updated statistics value. -/
theorem claim_C3_amended (env : TelegramEnv) (dr : Bool) (B delay : Nat)
    (g : ChatGroup) (gs : List ChatGroup) (s : Stats)
    (h : env.resolve g.chat_id = false) :
    processChat env dr B delay g s =
      ({ s with failed := s.failed + g.message_ids.length }, []) ∧
    delete_messages_batch env dr B delay (g :: gs) s =
      delete_messages_batch env dr B delay gs
        { s with failed := s.failed + g.message_ids.length } := by
  constructor
  · simp [processChat, h]
  · simp [delete_messages_batch, processChat, h]

/-- Witness instantiating the amended claim C3 at the unresolvable chat 2
with two candidates. -/
theorem claim_C3_witness :
    c3Env.resolve (2 : Int) = false ∧
    (processChat c3Env false 100 2 ⟨2, "B", [20, 21]⟩ initStats =
      ({ initStats with
          failed := initStats.failed + (⟨2, "B", [20, 21]⟩ : ChatGroup).message_ids.length }, []) ∧
     delete_messages_batch c3Env false 100 2 [⟨2, "B", [20, 21]⟩] initStats =
      delete_messages_batch c3Env false 100 2 []
        { initStats with
          failed := initStats.failed + (⟨2, "B", [20, 21]⟩ : ChatGroup).message_ids.length }) :=
  ⟨by decide, claim_C3_amended c3Env false 100 2 ⟨2, "B", [20, 21]⟩ [] initStats (by decide)⟩

/-- Claim C3 counterexample: in a three-chat run where only chat 2 fails
to resolve, the other two chats are processed normally and no delete
attempt targets chat 2, but contrary to the claim the failed candidates of
chat 2 are never recorded in the error ledger and carry no chat-not-found
reason: the final error ledger is empty while the failed counter is 2. -/
theorem claim_C3_counterexample :
    delete_messages_batch c3Env false 100 2 c3Groups initStats =
      (⟨2, 2, 2, 0, []⟩,
       [.fetch 1 10, .deleteCall 1 10 true, .fetch 3 30, .deleteCall 3 30 true]) ∧
    (delete_messages_batch c3Env false 100 2 c3Groups initStats).1.errors = [] := by
  decide

/-! ## Selection and matching claims (C1, C8, C9) -/

/-- Claim C1 evaluated at its failing input: with two chats whose single
outgoing messages share message id 5, cutoff 10 and keyword card, the
selection keeps BOTH old messages, including the chat-1 message whose own
text x does not satisfy the keyword predicate — its id merely collides
with the id of the matching message of chat 2, so the isin filter on
message ids admits it. This contradicts the claimed equivalence that a
message is selected only if its own text matches, and contradicts the
source comment stating that only old messages that match keywords are
kept. -/
theorem claim_C1_code_eval :
    select_old_messages c1Data 10 ["card"] false true =
      [⟨1, "A", "personal_chat", 5, 0, "x"⟩, ⟨2, "B", "personal_chat", 5, 0, "here is my card"⟩] ∧
    messageMatches ["card"] false true "x" = false ∧
    (⟨1, "A", "personal_chat", 5, 0, "x"⟩ : MsgRow).date < 10 := by
  refine ⟨by decide, by decide, by decide⟩

/-- Claim C8 counterexample: on an empty keyword set the keyword matcher
find_messages_by_keywords returns the empty match set even over a
non-empty message list, so at the matcher level the empty keyword set
behaves as a predicate that excludes everything, not as one that never
excludes. -/
theorem claim_C8_counterexample :
    find_messages_by_keywords [⟨1, "A", "personal_chat", 7, 0, "hello"⟩] [] false true = [] ∧
    ([⟨1, "A", "personal_chat", 7, 0, "hello"⟩] : List MsgRow) ≠ [] := by
  refine ⟨by decide, by decide⟩

/-- Claim C8, amended: the selection path never consults the keyword
matcher when the keyword set is empty, so selection with no keywords keeps
exactly the owner-authored messages older than the cutoff; the matcher
itself returns the empty match set on an empty keyword list. -/
theorem claim_C8_amended (d : ExportData) (cutoff : Int) (cs ww : Bool) (msgs : List MsgRow) :
    select_old_messages d cutoff [] cs ww =
      (extract_outgoing_messages d).filter (fun m => m.date < cutoff) ∧
    find_messages_by_keywords msgs [] cs ww = [] := by
  constructor
  · simp [select_old_messages]
  · simp [find_messages_by_keywords]

/-- Claim C9: under whole-word mode the keyword card matches the text my
card is here and does not match cardboard box, and under partial mode it
matches both, for the json_analyzer matcher and for the inline matcher of
api_only_delete_messages alike. -/
theorem claim_C9_whole_word :
    messageMatches ["card"] false true "my card is here" = true ∧
    messageMatches ["card"] false true "cardboard box" = false ∧
    messageMatches ["card"] false false "my card is here" = true ∧
    messageMatches ["card"] false false "cardboard box" = true ∧
    api_keyword_found ["card"] false true "my card is here" = true ∧
    api_keyword_found ["card"] false true "cardboard box" = false ∧
    api_keyword_found ["card"] false false "my card is here" = true ∧
    api_keyword_found ["card"] false false "cardboard box" = true := by
  decide

/-! ## Live dispatch (claim C6) -/

/-- Claim C6: in live mode every delete attempt equals the specification
case table spec_live_delete applied to the remote responses for that
message: a fetch miss yields the message-not-found failure, a non-owner
message yields the not-from-you failure, and otherwise the remote delete
is issued with the revoke flag set, acknowledgements mapping to success or
the deletion-failed failure and the permission-denied and delete-forbidden
signals mapping to their failures. -/
theorem claim_C6_live_dispatch (env : TelegramEnv) (c : Int) (m : Nat) :
    delete_message env c m true false =
      spec_live_delete (env.fetchMsg c m) (env.deleteRes c m) c m := by
  cases hf : env.fetchMsg c m with
  | missing => simp [delete_message, spec_live_delete, hf]
  | found out =>
    cases out with
    | false => simp [delete_message, spec_live_delete, hf]
    | true =>
      cases hd : env.deleteRes c m with
      | ack r => cases r <;> simp [delete_message, spec_live_delete, hf, hd]
      | floodWait n => simp [delete_message, spec_live_delete, hf, hd]
      | adminRequired => simp [delete_message, spec_live_delete, hf, hd]
      | deleteForbidden => simp [delete_message, spec_live_delete, hf, hd]
      | unexpectedError d => simp [delete_message, spec_live_delete, hf, hd]

/-! ## Attempt-count lemmas (claim C5) -/

/-- Attempt counting distributes over trace concatenation. -/
theorem attemptCount_append (c : Int) (m : Nat) (t1 t2 : List Event) :
    attemptCount c m (t1 ++ t2) = attemptCount c m t1 + attemptCount c m t2 :=
  List.countP_append _ _ _

/-- Pacing counting distributes over trace concatenation. -/
theorem pacingCount_append (t1 t2 : List Event) :
    pacingCount (t1 ++ t2) = pacingCount t1 + pacingCount t2 :=
  List.countP_append _ _ _

/-- The trace of one processed message is exactly the trace of its
delete_message call. -/
theorem trace_processMessage (env : TelegramEnv) (dr : Bool) (c2 : Int) (nm : String)
    (m2 : Nat) (s : Stats) :
    (processMessage env dr c2 nm m2 s).2 = (delete_message env c2 m2 true dr).2 := by
  unfold processMessage
  dsimp only
  split
  · split <;> rfl
  · rfl

/-- A live delete_message call performs exactly one attempt on its own
message and none on any other. -/
theorem attempt_delete_message_live (env : TelegramEnv) (c2 : Int) (m2 : Nat) (r : Bool)
    (c : Int) (m : Nat) :
    attemptCount c m (delete_message env c2 m2 r false).2 =
      if c2 = c ∧ m2 = m then 1 else 0 := by
  have hfe : ∀ (l : List Event), attemptCount c m (Event.fetch c2 m2 :: l) =
      attemptCount c m l + if c2 = c ∧ m2 = m then 1 else 0 := by
    intro l
    simp only [attemptCount, List.countP_cons, isAttemptEv]
    by_cases h1 : c2 = c <;> by_cases h2 : m2 = m <;> simp [h1, h2]
  have hdc : ∀ (l : List Event) (rv : Bool),
      attemptCount c m (Event.deleteCall c2 m2 rv :: l) = attemptCount c m l := by
    intro l rv; simp [attemptCount, List.countP_cons, isAttemptEv]
  have hfw : ∀ (l : List Event) (n : Nat),
      attemptCount c m (Event.sleepFlood n :: l) = attemptCount c m l := by
    intro l n; simp [attemptCount, List.countP_cons, isAttemptEv]
  have hnil : attemptCount c m [] = 0 := rfl
  unfold delete_message
  cases env.fetchMsg c2 m2 with
  | missing => simp [hfe, hnil]
  | found out =>
      cases out with
      | false => simp [hfe, hnil]
      | true =>
          cases env.deleteRes c2 m2 with
          | ack r2 => cases r2 <;> simp [hfe, hdc, hfw, hnil]
          | floodWait n => simp [hfe, hdc, hfw, hnil]
          | adminRequired => simp [hfe, hdc, hfw, hnil]
          | deleteForbidden => simp [hfe, hdc, hfw, hnil]
          | unexpectedError d => simp [hfe, hdc, hfw, hnil]

/-- Live processing of a message list attempts each message exactly as
often as it occurs in the list, and only under the list's own chat. -/
theorem attempt_processMsgs_live (env : TelegramEnv) (c2 : Int) (nm : String)
    (c : Int) (m : Nat) :
    ∀ (ids : List Nat) (s : Stats),
      attemptCount c m (processMsgs env false c2 nm ids s).2 =
        if c2 = c then ids.count m else 0 := by
  intro ids
  induction ids with
  | nil =>
      intro s
      by_cases h1 : c2 = c <;> simp [processMsgs, attemptCount, h1]
  | cons x ms ih =>
      intro s
      simp only [processMsgs]
      rw [attemptCount_append, trace_processMessage, attempt_delete_message_live, ih]
      by_cases h1 : c2 = c
      all_goals by_cases h2 : x = m
      all_goals simp [h1, h2, List.count_cons]
      all_goals omega

/-- Live processing of a batch list attempts each message exactly as often
as it occurs in the concatenation of the batches. -/
theorem attempt_processBatchList_live (env : TelegramEnv) (c2 : Int) (nm : String)
    (delay : Nat) (c : Int) (m : Nat) :
    ∀ (bs : List (List Nat)) (s : Stats),
      attemptCount c m (processBatchList env false c2 nm delay bs s).2 =
        if c2 = c then bs.flatten.count m else 0 := by
  intro bs
  induction bs with
  | nil =>
      intro s
      by_cases h1 : c2 = c <;> simp [processBatchList, attemptCount, h1]
  | cons b bs ih =>
      intro s
      simp only [processBatchList]
      rw [attemptCount_append]
      have ht : attemptCount c m
          (if bs ≠ [] ∧ 0 < delay
           then (processMsgs env false c2 nm b s).2 ++ [Event.sleepPacing delay]
           else (processMsgs env false c2 nm b s).2) =
          if c2 = c then b.count m else 0 := by
        split
        · rw [attemptCount_append]
          have h0 : attemptCount c m [Event.sleepPacing delay] = 0 := by
            simp [attemptCount, isAttemptEv]
          rw [h0, attempt_processMsgs_live]
          omega
        · exact attempt_processMsgs_live env c2 nm c m b s
      rw [ht, ih]
      by_cases h1 : c2 = c <;> simp [h1, List.flatten_cons, List.count_append]

/-- Live processing of one chat attempts each of its candidates exactly as
often as it occurs in the candidate list when the chat resolves, and never
when it does not. -/
theorem attempt_processChat_live (env : TelegramEnv) (B delay : Nat) (hB : 0 < B)
    (g : ChatGroup) (s : Stats) (c : Int) (m : Nat) :
    attemptCount c m (processChat env false B delay g s).2 =
      if env.resolve g.chat_id ∧ g.chat_id = c then g.message_ids.count m else 0 := by
  simp only [processChat]
  split
  · rename_i hres
    rw [attempt_processBatchList_live, chunks_flatten B hB]
    have hiff : (env.resolve g.chat_id = true ∧ g.chat_id = c) ↔ (g.chat_id = c) := by
      simp [hres]
    rw [if_congr hiff rfl rfl]
  · rename_i hres
    rw [if_neg (fun h => hres h.1)]
    rfl

/-- A live run attempts each message exactly as often as the candidate
grouping schedules it. -/
theorem attempt_run_live (env : TelegramEnv) (B delay : Nat) (hB : 0 < B)
    (c : Int) (m : Nat) :
    ∀ (groups : List ChatGroup) (s : Stats),
      attemptCount c m (delete_messages_batch env false B delay groups s).2 =
        scheduledCount env c m groups := by
  intro groups
  induction groups with
  | nil => intro s; simp [delete_messages_batch, attemptCount, scheduledCount]
  | cons g gs ih =>
      intro s
      simp only [delete_messages_batch, scheduledCount]
      rw [attemptCount_append, attempt_processChat_live env B delay hB g s c m, ih]

/-- Claim C5: on a remote rate-limit signal carrying a mandatory wait of n
seconds, the attempt issues the fetch and the delete call, sleeps n
seconds as the last action of the attempt (so the suspension precedes
every event of every later attempt), reports failure with the
rate-limited-waited reason, records that failure with its reason in the
error ledger, and the message is attempted exactly once in the whole run
when the candidate grouping schedules it once — it is not reattempted
after the wait. -/
theorem claim_C5_rate_limit (env : TelegramEnv) (c : Int) (m n : Nat) (nm : String)
    (s : Stats) (rest : List Nat) (groups : List ChatGroup) (B delay : Nat)
    (hf : env.fetchMsg c m = .found true) (hd : env.deleteRes c m = .floodWait n)
    (hB : 0 < B) (hsched : scheduledCount env c m groups = 1) :
    delete_message env c m true false =
      ((false, "Rate limited, waited " ++ toString n ++ "s"),
       [.fetch c m, .deleteCall c m true, .sleepFlood n]) ∧
    processMessage env false c nm m s =
      ({ s with
          total_processed := s.total_processed + 1
          failed := s.failed + 1
          errors := s.errors ++ [⟨nm, m, "Rate limited, waited " ++ toString n ++ "s"⟩] },
       [.fetch c m, .deleteCall c m true, .sleepFlood n]) ∧
    processMsgs env false c nm (m :: rest) s =
      ((processMsgs env false c nm rest (processMessage env false c nm m s).1).1,
       [Event.fetch c m, Event.deleteCall c m true, Event.sleepFlood n] ++
         (processMsgs env false c nm rest (processMessage env false c nm m s).1).2) ∧
    attemptCount c m (delete_messages_batch env false B delay groups initStats).2 = 1 := by
  have h1 : delete_message env c m true false =
      ((false, "Rate limited, waited " ++ toString n ++ "s"),
       [.fetch c m, .deleteCall c m true, .sleepFlood n]) := by
    simp [delete_message, hf, hd]
  have h2 : processMessage env false c nm m s =
      ({ s with
          total_processed := s.total_processed + 1
          failed := s.failed + 1
          errors := s.errors ++ [⟨nm, m, "Rate limited, waited " ++ toString n ++ "s"⟩] },
       [.fetch c m, .deleteCall c m true, .sleepFlood n]) := by
    simp [processMessage, h1]
  refine ⟨h1, h2, ?_, ?_⟩
  · simp only [processMsgs]
    rw [h2]
  · rw [attempt_run_live env B delay hB c m groups initStats, hsched]

/-- Witness instantiating claim C5 at the flood-waiting environment on
message 2 of chat 7, scheduled once in a three-candidate chat. -/
theorem claim_C5_witness :
    c5Env.fetchMsg 7 2 = FetchResult.found true ∧
    c5Env.deleteRes 7 2 = DeleteCallResult.floodWait 5 ∧
    scheduledCount c5Env 7 2 [⟨7, "A", [1, 2, 3]⟩] = 1 ∧
    attemptCount 7 2 (delete_messages_batch c5Env false 2 2 [⟨7, "A", [1, 2, 3]⟩] initStats).2 = 1 :=
  ⟨rfl, by decide, by decide,
   (claim_C5_rate_limit c5Env 7 2 5 "A" initStats [3] [⟨7, "A", [1, 2, 3]⟩] 2 2
      rfl (by decide) (by decide) (by decide)).2.2.2⟩

/-! ## Pacing lemmas (claim C7) -/

/-- A single delete attempt never performs a pacing sleep, in either
mode. -/
theorem pacing_delete_message (env : TelegramEnv) (c2 : Int) (m2 : Nat) (r dr : Bool) :
    pacingCount (delete_message env c2 m2 r dr).2 = 0 := by
  unfold delete_message
  cases dr with
  | true => rfl
  | false =>
      cases env.fetchMsg c2 m2 with
      | missing => rfl
      | found out =>
          cases out with
          | false => rfl
          | true =>
              cases env.deleteRes c2 m2 with
              | ack r2 => cases r2 <;> rfl
              | floodWait n => rfl
              | adminRequired => rfl
              | deleteForbidden => rfl
              | unexpectedError d => rfl

/-- Processing the messages of one batch performs no pacing sleep. -/
theorem pacing_processMsgs (env : TelegramEnv) (dr : Bool) (c2 : Int) (nm : String) :
    ∀ (ids : List Nat) (s : Stats),
      pacingCount (processMsgs env dr c2 nm ids s).2 = 0 := by
  intro ids
  induction ids with
  | nil => intro s; rfl
  | cons x ms ih =>
      intro s
      simp only [processMsgs]
      rw [pacingCount_append, trace_processMessage, pacing_delete_message, ih]

/-- With a positive delay, a batch list performs exactly one pacing sleep
fewer than it has batches: one after every batch except the last. -/
theorem pacing_processBatchList (env : TelegramEnv) (dr : Bool) (c2 : Int) (nm : String)
    (delay : Nat) (hdelay : 0 < delay) :
    ∀ (bs : List (List Nat)) (s : Stats),
      pacingCount (processBatchList env dr c2 nm delay bs s).2 = bs.length - 1 := by
  intro bs
  induction bs with
  | nil => intro s; rfl
  | cons b bs ih =>
      intro s
      simp only [processBatchList]
      rw [pacingCount_append]
      split
      · rename_i hcond
        have hlen : 0 < bs.length := List.length_pos.2 hcond.1
        rw [pacingCount_append, pacing_processMsgs, ih]
        have h1 : pacingCount [Event.sleepPacing delay] = 1 := by
          simp [pacingCount, isPacingEv]
        rw [h1]
        simp only [List.length_cons]
        omega
      · rename_i hcond
        have hbs : bs = [] := by
          by_contra hne
          exact hcond ⟨hne, hdelay⟩
        subst hbs
        rw [pacing_processMsgs]
        rfl

/-- With a positive delay, one chat performs one pacing sleep fewer than
its batch count when it resolves, and none when it does not; in
particular no pacing sleep follows the final batch of any chat. -/
theorem pacing_processChat (env : TelegramEnv) (dr : Bool) (B delay : Nat)
    (hdelay : 0 < delay) (g : ChatGroup) (s : Stats) :
    pacingCount (processChat env dr B delay g s).2 =
      if env.resolve g.chat_id then (chunks B g.message_ids).length - 1 else 0 := by
  simp only [processChat]
  split
  · rw [pacing_processBatchList env dr g.chat_id g.chat_name delay hdelay]
  · rfl

/-- With a positive delay, a run performs exactly the per-chat pacing
totals: for every resolvable chat, its batch count minus one. -/
theorem pacing_run (env : TelegramEnv) (dr : Bool) (B delay : Nat) (hdelay : 0 < delay) :
    ∀ (groups : List ChatGroup) (s : Stats),
      pacingCount (delete_messages_batch env dr B delay groups s).2 =
        pacingExpected env B groups := by
  intro groups
  induction groups with
  | nil => intro s; rfl
  | cons g gs ih =>
      intro s
      simp only [delete_messages_batch, pacingExpected]
      rw [pacingCount_append, pacing_processChat env dr B delay hdelay g s, ih]

/-- Claim C7, amended: with a positive delay the pacing suspension occurs
after every batch except the last batch of EACH chat — the run performs,
per resolvable chat, one pacing sleep fewer than that chat has batches, so
no suspension follows the final batch of any chat, including the final
batch of a non-final chat. -/
theorem claim_C7_amended (env : TelegramEnv) (dr : Bool) (B delay : Nat)
    (groups : List ChatGroup) (s : Stats) (hdelay : 0 < delay) :
    pacingCount (delete_messages_batch env dr B delay groups s).2 =
      pacingExpected env B groups :=
  pacing_run env dr B delay hdelay groups s

/-- Witness instantiating the amended claim C7 at the two-chat
specification scenario. -/
theorem claim_C7_witness :
    0 < 2 ∧
    pacingCount (delete_messages_batch allOkEnv false 2 2 c7Groups initStats).2 =
      pacingExpected allOkEnv 2 c7Groups :=
  ⟨by decide, claim_C7_amended allOkEnv false 2 2 c7Groups initStats (by decide)⟩

/-- Claim C7 counterexample: in the specification scenario — chat A with
ids 1, 2, 3, chat B with id 4, batch size 2, live mode, all successful —
the full trace contains exactly ONE pacing suspension, located between the
two batches of chat A; contrary to the claim, no suspension follows the
final batch of chat A (the first chat), whose last attempt on id 3 is
followed immediately by the chat-B attempt on id 4. -/
theorem claim_C7_counterexample :
    delete_messages_batch allOkEnv false 2 2 c7Groups initStats =
      (⟨4, 4, 0, 0, []⟩,
       [.fetch 1 1, .deleteCall 1 1 true, .fetch 1 2, .deleteCall 1 2 true,
        .sleepPacing 2,
        .fetch 1 3, .deleteCall 1 3 true,
        .fetch 2 4, .deleteCall 2 4 true]) ∧
    pacingCount (delete_messages_batch allOkEnv false 2 2 c7Groups initStats).2 = 1 := by
  decide
